import Mathlib

/-
  Verification development for the privacy-popup Shopify app.

  Shallow embedding of the claim-relevant parts of the repository:
    - shopifyHelpers.verifyWebhookSignature        (src/lib/shopify.ts)
    - the db helpers over Prisma                   (src/lib/db.ts)
    - the app/uninstalled webhook route            (src/app/api/webhooks/app/uninstalled/route.ts)
    - the app_subscriptions/update webhook route   (the subscription reconciler)
    - the billing subscribe / cancel routes
    - the api/settings POST route                  (the settings authorization gate)

  Modelling conventions:
    - The persistent store (Prisma) is an explicit DbState record of lists;
      each db helper from src/lib/db.ts becomes a pure function on DbState.
      The routes access the store both through the db helpers and directly
      through the Prisma client (written db.prisma in the routes); both are
      embedded as the same DbState operations.
    - External effects are inputs: the parsed JSON body of a webhook is
      passed alongside the raw body (JSON.parse is a library primitive),
      Shopify GraphQL results (userErrors, appSubscription) are parameters,
      session lookup is a Bool parameter, a failure thrown by the store
      during the uninstall cleanup is a parameter naming the failing awaited
      statement (the deletes are sequential and non-transactional, so the
      statements awaited before the throw keep their effect), and Node's
      HMAC-SHA256/base64 primitive is a function parameter (with a concrete
      stand-in digest used to evaluate witnesses).
    - Wall-clock timestamps (createdAt/updatedAt, ISO strings stamped into
      audit details) and request metadata (user agent, IP) are omitted from
      the model; no claim depends on them.
    - Thrown JS exceptions are Except.error values; each route's
      surrounding try/catch turns them into a 500 response.
-/

namespace PrivacyPopup

/-- Decidable equality for Except, so that witnesses can evaluate the
    verification results on concrete inputs. -/
instance {ε α : Type} [DecidableEq ε] [DecidableEq α] : DecidableEq (Except ε α) := fun x y =>
  match x, y with
  | Except.error a, Except.error b =>
      if h : a = b then Decidable.isTrue (h ▸ rfl)
      else Decidable.isFalse (fun hc => h (Except.noConfusion hc id))
  | Except.ok a, Except.ok b =>
      if h : a = b then Decidable.isTrue (h ▸ rfl)
      else Decidable.isFalse (fun hc => h (Except.noConfusion hc id))
  | Except.error _, Except.ok _ => Decidable.isFalse (fun hc => Except.noConfusion hc)
  | Except.ok _, Except.error _ => Decidable.isFalse (fun hc => Except.noConfusion hc)

/-! ## Webhook signature verification (src/lib/shopify.ts, verifyWebhookSignature) -/

/-- UTF-8 byte length of a string: the length of Buffer.from(s, 'utf8'). -/
def utf8Len (s : String) : Nat :=
  s.data.foldl (fun n c => n + c.utf8Size) 0

/-- Model of Node's crypto.timingSafeEqual applied to the UTF-8 buffers of two
    strings: it throws a RangeError when the byte lengths differ, and otherwise
    returns content equality (byte-sequence equality of UTF-8 encodings
    coincides with string equality, so the comparison is string equality). -/
def timingSafeEqualStr (a b : String) : Except String Bool :=
  if utf8Len a = utf8Len b then Except.ok (a == b)
  else Except.error "Input buffers must have the same byte length"

/-- shopifyHelpers.verifyWebhookSignature: compute the HMAC-SHA256 of the raw
    body under the configured secret, base64-encode it, and compare it against
    the supplied header value with crypto.timingSafeEqual.  The crypto
    primitive (createHmac('sha256', secret).update(data).digest('base64')) is
    the parameter hmacBase64 applied to the secret and the data. -/
def verifyWebhookSignature (hmacBase64 : String → String → String)
    (secret data signature : String) : Except String Bool :=
  timingSafeEqualStr (hmacBase64 secret data) signature

/-- The base64 alphabet, used by the concrete stand-in digest below. -/
def base64Alphabet : List Char :=
  "ABCDEFGHIJKLMNOPQRSTUVWXYZabcdefghijklmnopqrstuvwxyz0123456789+/".data

/-- Concrete stand-in for the external crypto primitive (HMAC-SHA256 followed
    by base64): a keyed rolling hash rendered as 43 base64 characters plus the
    trailing pad, so that, like the real digest, its output is always exactly
    44 ASCII characters.  Used to instantiate witnesses and counterexamples on
    concrete inputs. -/
def hmacSha256Base64Model (secret data : String) : String :=
  let seed := ((secret ++ "|") ++ data).data.foldl
    (fun h c => (h * 65599 + c.toNat + 1) % 1152921504606846976) 7
  String.mk (((List.range 43).map
    (fun i => base64Alphabet.getD ((seed / 2 ^ (i % 50) + i * seed) % 64) 'A')) ++ ['='])

/-! ## Data model (prisma schema, projected to the claim-relevant fields) -/

/-- The local subscription status enum. -/
inductive SubStatus
  | PENDING
  | ACTIVE
  | CANCELLED
  | EXPIRED
  | FROZEN
  | PAUSED
deriving DecidableEq, Repr

/-- A Shop row (claim-relevant fields). -/
structure Shop where
  id : String
  shopifyDomain : String
deriving DecidableEq, Repr

/-- A Subscription row (claim-relevant fields; price is the decimal's string
    rendering, currentPeriodEnd the date's string rendering). -/
structure Subscription where
  id : String
  shopId : String
  shopifySubscriptionId : String
  name : String
  status : SubStatus
  price : String
  currentPeriodEnd : Option String
deriving DecidableEq, Repr

/-- A popup-settings payload, the shape validated by popupSettingsSchema. -/
structure PopupSettings where
  message : String
  linkUrl : String
  position : String
  maxWidth : Int
  padding : Int
  zIndex : Int
  dismissible : Bool
  bgColor : String
  textColor : String
  linkColor : String
deriving DecidableEq, Repr

/-- The JSON value stored in a Setting row: the popup_settings blob, or some
    other blob (theme info, notifications) that no claim inspects. -/
inductive SettingValue
  | popup (p : PopupSettings)
  | other (tag : String)
deriving DecidableEq, Repr

/-- A Setting row: one JSON blob per shop per named key. -/
structure Setting where
  shopId : String
  key : String
  value : SettingValue
deriving DecidableEq, Repr

/-- A Session row (claim-relevant fields). -/
structure SessionRec where
  id : String
  shop : String
deriving DecidableEq, Repr

/-- The structured details payload of an audit entry, one constructor per
    call site of db.createAuditLog that the claims mention. -/
inductive AuditDetails
  | appUninstalled (shopDomain : String)
  | cleanupFailed (shopDomain : String) (errMsg : String)
  | subscriptionUpdated (shopifySubscriptionId : String) (oldStatus newStatus : SubStatus)
      (billingOn : Option String) (whId whName whStatus : String)
  | subscriptionActivated (shopifySubscriptionId : String) (plan price : String)
  | subscriptionCancelledByShopify (shopifySubscriptionId : String)
  | subscriptionCancelledUser (shopifySubscriptionId : String)
  | subscriptionCreated (planId price : String)
  | settingsUpdated (updatedSettings : PopupSettings) (restrictedFeatures : List String)
  | shopUpdated
deriving DecidableEq, Repr

/-- An AuditLog row (request metadata and timestamps omitted). -/
structure AuditEntry where
  shopId : String
  action : String
  resource : Option String
  resourceId : Option String
  details : AuditDetails
deriving DecidableEq, Repr

/-- The persistent store: the tables the claims are about, each a list of
    rows in insertion order (newest last). -/
structure DbState where
  shops : List Shop
  subscriptions : List Subscription
  settings : List Setting
  auditLogs : List AuditEntry
  sessions : List SessionRec
deriving DecidableEq, Repr

/-! ## db helpers (src/lib/db.ts), embedded as pure functions on DbState -/

/-- db.findShopByDomain: prisma.shop.findUnique where shopifyDomain = domain. -/
def findShopByDomain (s : DbState) (domain : String) : Option Shop :=
  s.shops.find? (fun sh => sh.shopifyDomain == domain)

/-- db.getActiveSubscription: prisma.subscription.findFirst where shopId and
    status = 'ACTIVE'. -/
def getActiveSubscription (s : DbState) (shopId : String) : Option Subscription :=
  s.subscriptions.find? (fun sub => sub.shopId == shopId && sub.status == SubStatus.ACTIVE)

/-- prisma.subscription.findUnique where shopifySubscriptionId (used by the
    reconciler route through the Prisma client). -/
def findSubscriptionByShopifyId (s : DbState) (sid : String) : Option Subscription :=
  s.subscriptions.find? (fun sub => sub.shopifySubscriptionId == sid)

/-- prisma.subscription.update keyed by the unique shopifySubscriptionId:
    rewrite the matching row with f. -/
def updWhere (sid : String) (f : Subscription → Subscription)
    (l : List Subscription) : List Subscription :=
  l.map (fun sub => if sub.shopifySubscriptionId == sid then f sub else sub)

/-- db.updateSubscriptionStatus: overwrite the status of the row with the
    given shopifySubscriptionId. -/
def updateSubscriptionStatus (s : DbState) (sid : String) (st : SubStatus) : DbState :=
  { s with subscriptions := updWhere sid (fun sub => { sub with status := st }) s.subscriptions }

/-- The reconciler's direct prisma.subscription.update that sets
    currentPeriodEnd when billing_on is supplied. -/
def setCurrentPeriodEnd (s : DbState) (sid : String) (d : String) : DbState :=
  { s with subscriptions := updWhere sid (fun sub => { sub with currentPeriodEnd := some d }) s.subscriptions }

/-- db.createAuditLog: append-only insert. -/
def createAuditLog (s : DbState) (e : AuditEntry) : DbState :=
  { s with auditLogs := s.auditLogs ++ [e] }

/-- db.createSubscription: insert a new subscription row. -/
def createSubscription (s : DbState) (sub : Subscription) : DbState :=
  { s with subscriptions := s.subscriptions ++ [sub] }

/-- db.getShopSettings with a key: prisma.setting.findUnique on (shopId, key),
    projected to the stored value. -/
def getShopSetting (s : DbState) (shopId key : String) : Option SettingValue :=
  (s.settings.find? (fun st => st.shopId == shopId && st.key == key)).map Setting.value

/-- db.updateShopSettings: prisma.setting.upsert on (shopId, key). -/
def updateShopSettings (s : DbState) (shopId key : String) (v : SettingValue) : DbState :=
  if s.settings.any (fun st => st.shopId == shopId && st.key == key) then
    { s with settings :=
        s.settings.map (fun st =>
          if st.shopId == shopId && st.key == key then { st with value := v } else st) }
  else
    { s with settings := s.settings ++ [⟨shopId, key, v⟩] }

/-- db.deleteSessionsByShop: prisma.session.deleteMany where shop. -/
def deleteSessionsByShop (s : DbState) (shop : String) : DbState :=
  { s with sessions := s.sessions.filter (fun ss => !(ss.shop == shop)) }

/-- prisma.auditLog.deleteMany where shopId. -/
def deleteAuditLogsByShop (s : DbState) (shopId : String) : DbState :=
  { s with auditLogs := s.auditLogs.filter (fun e => !(e.shopId == shopId)) }

/-- prisma.setting.deleteMany where shopId. -/
def deleteSettingsByShop (s : DbState) (shopId : String) : DbState :=
  { s with settings := s.settings.filter (fun st => !(st.shopId == shopId)) }

/-- prisma.subscription.deleteMany where shopId. -/
def deleteSubscriptionsByShop (s : DbState) (shopId : String) : DbState :=
  { s with subscriptions := s.subscriptions.filter (fun sub => !(sub.shopId == shopId)) }

/-- prisma.shop.delete where id. -/
def deleteShopRow (s : DbState) (shopId : String) : DbState :=
  { s with shops := s.shops.filter (fun sh => !(sh.id == shopId)) }

/-- db.cleanupShopData: the four awaited deletes in source order: auditLogs,
    settings, subscriptions, then the shop row itself. -/
def cleanupShopData (s : DbState) (shopId : String) : DbState :=
  deleteShopRow (deleteSubscriptionsByShop (deleteSettingsByShop
    (deleteAuditLogsByShop s shopId) shopId) shopId) shopId

/-! ## Route plumbing -/

/-- JS truthiness of an optional string: null/undefined and the empty string
    are falsy. -/
def truthyStr : Option String → Option String
  | none => none
  | some s => if s = "" then none else some s

/-- The JS expression a || b on two optional strings. -/
def jsOrStr (a b : Option String) : Option String :=
  match truthyStr a with
  | some x => some x
  | none => truthyStr b

/-- The NextResponse.json values the embedded routes produce, projected to the
    claim-relevant payload. -/
inductive ApiResponse
  | success (message : Option String)
  | successSub (status : SubStatus)
  | successSettings (data : PopupSettings) (restrictedFeatures : List String)
  | err (status : Nat) (message : String)
deriving DecidableEq, Repr

/-! ## app/uninstalled webhook route -/

/-- The inbound uninstall webhook: raw body, signature header, and the fields
    the route reads from the parsed body. -/
structure UninstallWebhook where
  rawBody : String
  signature : Option String
  myshopifyDomain : Option String
  domain : Option String
deriving DecidableEq, Repr

/-- The cleanup try-block of the uninstall route as its five awaited store
    statements in source order: db.deleteSessionsByShop first, then the four
    deletes of db.cleanupShopData. -/
def uninstallCleanupStmts (shopDomain shopId : String) : List (DbState → DbState) :=
  [fun s => deleteSessionsByShop s shopDomain,
   fun s => deleteAuditLogsByShop s shopId,
   fun s => deleteSettingsByShop s shopId,
   fun s => deleteSubscriptionsByShop s shopId,
   fun s => deleteShopRow s shopId]

/-- Run a list of store statements in order. -/
def runStmts (stmts : List (DbState → DbState)) (s : DbState) : DbState :=
  stmts.foldl (fun st f => f st) s

/-- POST of src/app/api/webhooks/app/uninstalled/route.ts.  cleanupFailure is
    the external outcome of the cleanup try-block, whose five awaited store
    statements are sequential and non-transactional: none when they all
    succeed; some (k, msg) when the statement after the first k throws msg
    before taking effect, the k statements already awaited keeping their
    effect.  The catch then writes a cleanup_failed audit entry and the
    route still responds success. -/
def uninstalledPOST (hmacBase64 : String → String → String) (secret : String)
    (cleanupFailure : Option (Fin 5 × String)) (s : DbState) (w : UninstallWebhook) :
    DbState × ApiResponse :=
  match w.signature with
  | none => (s, ApiResponse.err 401 "Missing webhook signature")
  | some sig =>
    match verifyWebhookSignature hmacBase64 secret w.rawBody sig with
    | Except.error _ => (s, ApiResponse.err 500 "Failed to process app uninstalled webhook")
    | Except.ok false => (s, ApiResponse.err 401 "Invalid webhook signature")
    | Except.ok true =>
      match jsOrStr w.myshopifyDomain w.domain with
      | none => (s, ApiResponse.err 400 "Missing shop domain in webhook")
      | some shopDomain =>
        match findShopByDomain s shopDomain with
        | none => (s, ApiResponse.success none)
        | some shop =>
          let s1 := createAuditLog s
            ⟨shop.id, "app_uninstalled", some "app", none, AuditDetails.appUninstalled shopDomain⟩
          match cleanupFailure with
          | some (k, msg) =>
            let s2 := runStmts ((uninstallCleanupStmts shopDomain shop.id).take k.val) s1
            let s3 := createAuditLog s2
              ⟨shop.id, "cleanup_failed", some "app", none, AuditDetails.cleanupFailed shopDomain msg⟩
            (s3, ApiResponse.success (some "App uninstalled and data cleaned up"))
          | none =>
            let s2 := deleteSessionsByShop s1 shopDomain
            let s3 := cleanupShopData s2 shop.id
            (s3, ApiResponse.success (some "App uninstalled and data cleaned up"))

/-! ## app_subscriptions/update webhook route (the reconciler) -/

/-- The inbound subscription webhook: raw body, signature header, and the
    fields the route reads from the parsed body (id is the numeric id's
    decimal rendering). -/
structure SubscriptionWebhook where
  rawBody : String
  signature : Option String
  id : String
  status : String
  billingOn : Option String
  name : String
deriving DecidableEq, Repr

/-- The gid the route builds from the webhook's numeric id. -/
def gidOf (w : SubscriptionWebhook) : String :=
  "gid://shopify/AppSubscription/" ++ w.id

/-- The statusMapping record of the reconciler route: the explicit table from
    Shopify's status vocabulary onto the local enum. -/
def statusMapping : String → Option SubStatus
  | "pending" => some SubStatus.PENDING
  | "active" => some SubStatus.ACTIVE
  | "cancelled" => some SubStatus.CANCELLED
  | "expired" => some SubStatus.EXPIRED
  | "frozen" => some SubStatus.FROZEN
  | "paused" => some SubStatus.PAUSED
  | "declined" => some SubStatus.CANCELLED
  | _ => none

/-- statusMapping[subscriptionData.status] || 'PENDING'. -/
def mapProviderStatus (st : String) : SubStatus :=
  (statusMapping st).getD SubStatus.PENDING

/-- The state mutation of the reconciler's found-subscription branch, up to
    and including the audit writes; sub is the row as read before the update. -/
def reconcilerApply (s : DbState) (w : SubscriptionWebhook) (sub : Subscription) : DbState :=
  let sid := gidOf w
  let newStatus := mapProviderStatus w.status
  let s1 := updateSubscriptionStatus s sid newStatus
  let s2 := match truthyStr w.billingOn with
    | some d => setCurrentPeriodEnd s1 sid d
    | none => s1
  let s3 := createAuditLog s2
    ⟨sub.shopId, "subscription_updated", some "subscription", some sub.id,
      AuditDetails.subscriptionUpdated sid sub.status newStatus w.billingOn w.id w.name w.status⟩
  if newStatus == SubStatus.ACTIVE && sub.status == SubStatus.PENDING then
    createAuditLog s3
      ⟨sub.shopId, "subscription_activated", some "subscription", some sub.id,
        AuditDetails.subscriptionActivated sid sub.name sub.price⟩
  else if newStatus == SubStatus.CANCELLED then
    createAuditLog s3
      ⟨sub.shopId, "subscription_cancelled_by_shopify", some "subscription", some sub.id,
        AuditDetails.subscriptionCancelledByShopify sid⟩
  else s3

/-- The per-row rewrite the reconciler's found branch performs on the matched
    subscription: overwrite the status with the mapped one and, when
    billing_on is supplied, the current period end. -/
def reconcilerRowUpd (w : SubscriptionWebhook) (x : Subscription) : Subscription :=
  match truthyStr w.billingOn with
  | some d => { x with status := mapProviderStatus w.status, currentPeriodEnd := some d }
  | none => { x with status := mapProviderStatus w.status }

/-- POST of the app_subscriptions/update webhook route. -/
def reconcilerPOST (hmacBase64 : String → String → String) (secret : String)
    (s : DbState) (w : SubscriptionWebhook) : DbState × ApiResponse :=
  match w.signature with
  | none => (s, ApiResponse.err 401 "Missing webhook signature")
  | some sig =>
    match verifyWebhookSignature hmacBase64 secret w.rawBody sig with
    | Except.error _ => (s, ApiResponse.err 500 "Failed to process subscription update webhook")
    | Except.ok false => (s, ApiResponse.err 401 "Invalid webhook signature")
    | Except.ok true =>
      match findSubscriptionByShopifyId s (gidOf w) with
      | none => (s, ApiResponse.success none)
      | some sub =>
        (reconcilerApply s w sub, ApiResponse.successSub (mapProviderStatus w.status))

/-! ## billing cancel route -/

/-- The appSubscriptionCancel GraphQL result, projected to the route's use:
    the list of userErrors messages. -/
structure CancelResult where
  userErrors : List String
deriving DecidableEq, Repr

/-- POST of the billing cancel route.  sessionFound is the external session
    lookup; cancelResult the provider's synchronous reply. -/
def billingCancelPOST (shopParam : Option String) (sessionFound : Bool)
    (cancelResult : CancelResult) (s : DbState) : DbState × ApiResponse :=
  match truthyStr shopParam with
  | none => (s, ApiResponse.err 400 "Missing shop parameter")
  | some shop =>
    if !sessionFound then (s, ApiResponse.err 401 "No active session found")
    else
      match findShopByDomain s shop with
      | none => (s, ApiResponse.err 404 "Shop not found")
      | some shopRecord =>
        match getActiveSubscription s shopRecord.id with
        | none => (s, ApiResponse.err 404 "No active subscription found")
        | some activeSub =>
          if cancelResult.userErrors.length > 0 then
            (s, ApiResponse.err 400
              ("Subscription cancellation failed: " ++ String.intercalate ", " cancelResult.userErrors))
          else
            let s1 := updateSubscriptionStatus s activeSub.shopifySubscriptionId SubStatus.CANCELLED
            let s2 := createAuditLog s1
              ⟨shopRecord.id, "subscription_cancelled", some "subscription", some activeSub.id,
                AuditDetails.subscriptionCancelledUser activeSub.shopifySubscriptionId⟩
            (s2, ApiResponse.successSub SubStatus.CANCELLED)

/-! ## billing subscribe route -/

/-- The appSubscription object of the appSubscriptionCreate GraphQL result,
    projected to the fields the route stores. -/
structure AppSub where
  id : String
  name : String
deriving DecidableEq, Repr

/-- The appSubscriptionCreate GraphQL result, projected to the route's use. -/
structure CreateSubResult where
  userErrors : List String
  appSubscription : Option AppSub
deriving DecidableEq, Repr

/-- plans[planId] || plans.basic, projected to the stored price. -/
def planPrice (planId : String) : String :=
  if planId == "premium" then "9.99" else "4.99"

/-- POST of the billing subscribe route. freshId is the row id the store
    generates for the new subscription. -/
def billingSubscribePOST (shopParam : Option String) (sessionFound : Bool) (planId : String)
    (createResult : CreateSubResult) (freshId : String) (s : DbState) : DbState × ApiResponse :=
  match truthyStr shopParam with
  | none => (s, ApiResponse.err 400 "Missing shop parameter")
  | some shop =>
    if !sessionFound then (s, ApiResponse.err 401 "No active session found")
    else
      match findShopByDomain s shop with
      | none => (s, ApiResponse.err 404 "Shop not found")
      | some shopRecord =>
        match getActiveSubscription s shopRecord.id with
        | some _ => (s, ApiResponse.err 400 "Shop already has an active subscription")
        | none =>
          if createResult.userErrors.length > 0 then
            (s, ApiResponse.err 400
              ("Subscription creation failed: " ++ String.intercalate ", " createResult.userErrors))
          else
            match createResult.appSubscription with
            | none => (s, ApiResponse.err 500 "Failed to create subscription")
            | some appSub =>
              let newSub : Subscription :=
                ⟨freshId, shopRecord.id, appSub.id, appSub.name, SubStatus.PENDING,
                  planPrice planId, none⟩
              let s1 := createSubscription s newSub
              let s2 := createAuditLog s1
                ⟨shopRecord.id, "subscription_created", some "subscription", some freshId,
                  AuditDetails.subscriptionCreated planId (planPrice planId)⟩
              (s2, ApiResponse.successSub SubStatus.PENDING)

/-! ## api/settings POST route (the authorization gate) -/

/-- A hex digit, for the hex-color regex. -/
def isHexDigit (c : Char) : Bool :=
  c.isDigit || ('A' ≤ c && c ≤ 'F') || ('a' ≤ c && c ≤ 'f')

/-- The regex of the three color fields of popupSettingsSchema. -/
def isHexColor (s : String) : Bool :=
  s.length == 7 && s.data.take 1 == ['#'] && (s.data.drop 1).all isHexDigit

/-- Structural character-list version of the startsWith test. -/
def listIsHead : List Char → List Char → Bool
  | [], _ => true
  | _ :: _, [] => false
  | p :: ps, c :: cs => p == c && listIsHead ps cs

/-- s begins with pre (the JS String.prototype.startsWith semantics). -/
def strStarts (s pre : String) : Bool := listIsHead pre.data s.data

/-- Model of the linkUrl rule of popupSettingsSchema: a URL (the zod library's
    url() check, modelled as an http(s) scheme) or a relative path. -/
def isValidLinkUrl (s : String) : Bool :=
  strStarts s "/" || strStarts s "http://" || strStarts s "https://"

/-- popupSettingsSchema.parse succeeding: the bounds and shapes of the zod
    schema (string lengths counted in characters). -/
def isValidSettings (p : PopupSettings) : Bool :=
  decide (1 ≤ p.message.length) && decide (p.message.length ≤ 1000) &&
  isValidLinkUrl p.linkUrl &&
  ["top", "bottom", "left", "right"].contains p.position &&
  decide ((200 : Int) ≤ p.maxWidth) && decide (p.maxWidth ≤ 800) &&
  decide ((10 : Int) ≤ p.padding) && decide (p.padding ≤ 50) &&
  decide ((1 : Int) ≤ p.zIndex) && decide (p.zIndex ≤ 99999) &&
  isHexColor p.bgColor && isHexColor p.textColor && isHexColor p.linkColor

/-- The free-tier overwrite of the three color fields with the fixed
    defaults. -/
def restrictColors (p : PopupSettings) : PopupSettings :=
  { p with bgColor := "#ffffff", textColor := "#333333", linkColor := "#007ace" }

/-- POST of the api/settings route: schema validation, then the entitlement
    decision on the shop's current subscription, then persist and audit. -/
def settingsPOST (shopParam : Option String) (sessionFound : Bool)
    (body : PopupSettings) (s : DbState) : DbState × ApiResponse :=
  match truthyStr shopParam with
  | none => (s, ApiResponse.err 400 "Missing shop parameter")
  | some shop =>
    if !sessionFound then (s, ApiResponse.err 401 "No active session found")
    else
      match findShopByDomain s shop with
      | none => (s, ApiResponse.err 404 "Shop not found")
      | some shopRecord =>
        if !(isValidSettings body) then (s, ApiResponse.err 400 "Invalid settings data")
        else
          let hasActiveSubscription :=
            match getActiveSubscription s shopRecord.id with
            | some sub => sub.status == SubStatus.ACTIVE
            | none => false
          if !hasActiveSubscription then
            let restricted := restrictColors body
            let s1 := updateShopSettings s shopRecord.id "popup_settings" (SettingValue.popup restricted)
            let s2 := createAuditLog s1
              ⟨shopRecord.id, "settings_updated", some "popup_settings", none,
                AuditDetails.settingsUpdated restricted ["custom_colors"]⟩
            (s2, ApiResponse.successSettings restricted ["custom_colors"])
          else
            let s1 := updateShopSettings s shopRecord.id "popup_settings" (SettingValue.popup body)
            let s2 := createAuditLog s1
              ⟨shopRecord.id, "settings_updated", some "popup_settings", none,
                AuditDetails.settingsUpdated body []⟩
            (s2, ApiResponse.successSettings body [])

/-! ## Concrete sample data, used to evaluate witnesses and counterexamples -/

/-- The deployment secret used in concrete scenarios. -/
def demoSecret : String := "demo-secret"

/-- A schema-valid settings payload with custom colors (bgColor #ff0000). -/
def demoSettings : PopupSettings :=
  ⟨"We use cookies to enhance your browsing experience.", "/pages/privacy-policy",
    "bottom", 400, 20, 9999, true, "#ff0000", "#111111", "#222222"⟩

/-- Uninstall scenario: a shop with one subscription, one setting, one audit
    row and one session. -/
def c3Shop : Shop := ⟨"shop-3", "c3.myshopify.com"⟩

/-- The subscription row of the uninstall scenario. -/
def c3Sub : Subscription :=
  ⟨"sub-3", "shop-3", "gid://shopify/AppSubscription/300", "Privacy Popup Basic",
    SubStatus.ACTIVE, "4.99", none⟩

/-- The store of the uninstall scenario. -/
def c3State : DbState :=
  ⟨[c3Shop], [c3Sub],
    [⟨"shop-3", "popup_settings", SettingValue.other "blob"⟩],
    [⟨"shop-3", "settings_updated", some "popup_settings", none, AuditDetails.shopUpdated⟩],
    [⟨"sess-3", "c3.myshopify.com"⟩]⟩

/-- The correctly signed uninstall webhook of the uninstall scenario. -/
def c3Webhook : UninstallWebhook :=
  ⟨"uninstall-raw-body", some (hmacSha256Base64Model demoSecret "uninstall-raw-body"),
    some "c3.myshopify.com", none⟩

/-- Reconciler scenarios: a shop with one subscription known to the provider
    as id 400. -/
def c4Shop : Shop := ⟨"shop-4", "c4.myshopify.com"⟩

/-- A PENDING subscription row for the reconciler scenarios. -/
def c4SubPending : Subscription :=
  ⟨"sub-4", "shop-4", "gid://shopify/AppSubscription/400", "Privacy Popup Basic",
    SubStatus.PENDING, "4.99", none⟩

/-- An ACTIVE subscription row for the reconciler scenarios. -/
def c4SubActive : Subscription :=
  ⟨"sub-4", "shop-4", "gid://shopify/AppSubscription/400", "Privacy Popup Basic",
    SubStatus.ACTIVE, "4.99", none⟩

/-- Store with the PENDING row. -/
def c4StatePending : DbState := ⟨[c4Shop], [c4SubPending], [], [], []⟩

/-- Store with the ACTIVE row. -/
def c4StateActive : DbState := ⟨[c4Shop], [c4SubActive], [], [], []⟩

/-- A correctly signed subscription webhook carrying provider status
    "declined" for subscription 400. -/
def c4WebhookDeclined : SubscriptionWebhook :=
  ⟨"sub-raw-declined", some (hmacSha256Base64Model demoSecret "sub-raw-declined"),
    "400", "declined", none, "Privacy Popup Basic"⟩

/-- A correctly signed subscription webhook carrying provider status
    "active" for subscription 400. -/
def c6WebhookActive : SubscriptionWebhook :=
  ⟨"sub-raw-active", some (hmacSha256Base64Model demoSecret "sub-raw-active"),
    "400", "active", some "2026-11-01", "Privacy Popup Basic"⟩

/-- A correctly signed subscription webhook carrying the unrecognized
    provider status "unforeseen_status" for subscription 400. -/
def c10WebhookUnknown : SubscriptionWebhook :=
  ⟨"sub-raw-unknown", some (hmacSha256Base64Model demoSecret "sub-raw-unknown"),
    "400", "unforeseen_status", none, "Privacy Popup Basic"⟩

/-- Two-subscription scenario for the ACTIVE-uniqueness claim: a bare shop. -/
def c9Shop : Shop := ⟨"shop-9", "c9.myshopify.com"⟩

/-- The empty-subscriptions starting store of the uniqueness scenario. -/
def c9State0 : DbState := ⟨[c9Shop], [], [], [], []⟩

/-- Provider reply confirming creation of subscription 901. -/
def c9CreateA : CreateSubResult :=
  ⟨[], some ⟨"gid://shopify/AppSubscription/901", "Privacy Popup Basic"⟩⟩

/-- Provider reply confirming creation of subscription 902. -/
def c9CreateB : CreateSubResult :=
  ⟨[], some ⟨"gid://shopify/AppSubscription/902", "Privacy Popup Basic"⟩⟩

/-- Store after the first creation (a PENDING subscription 901). -/
def c9State1 : DbState :=
  (billingSubscribePOST (some "c9.myshopify.com") true "basic" c9CreateA "loc-901" c9State0).1

/-- Store after the second creation (PENDING subscriptions 901 and 902:
    the guard only checks for an ACTIVE subscription). -/
def c9State2 : DbState :=
  (billingSubscribePOST (some "c9.myshopify.com") true "basic" c9CreateB "loc-902" c9State1).1

/-- Correctly signed webhook activating subscription 901. -/
def c9WebhookA : SubscriptionWebhook :=
  ⟨"sub-raw-901", some (hmacSha256Base64Model demoSecret "sub-raw-901"),
    "901", "active", none, "Privacy Popup Basic"⟩

/-- Correctly signed webhook activating subscription 902. -/
def c9WebhookB : SubscriptionWebhook :=
  ⟨"sub-raw-902", some (hmacSha256Base64Model demoSecret "sub-raw-902"),
    "902", "active", none, "Privacy Popup Basic"⟩

/-- Store after both activations. -/
def c9State4 : DbState :=
  (reconcilerPOST hmacSha256Base64Model demoSecret
    (reconcilerPOST hmacSha256Base64Model demoSecret c9State2 c9WebhookA).1 c9WebhookB).1

/-! ## Helper lemmas -/

set_option maxRecDepth 100000

/-- updWhere rewrites rows in place, so a lookup by the same unique key finds
    the rewritten row, provided the rewrite preserves the key. -/
theorem find?_updWhere (l : List Subscription) (sid : String) (f : Subscription → Subscription)
    (hf : ∀ x, (f x).shopifySubscriptionId = x.shopifySubscriptionId) :
    (updWhere sid f l).find? (fun x => x.shopifySubscriptionId == sid)
      = (l.find? (fun x => x.shopifySubscriptionId == sid)).map f := by
  induction l with
  | nil => rfl
  | cons a l ih =>
    cases h : a.shopifySubscriptionId == sid with
    | true =>
      have h1 : updWhere sid f (a :: l) = f a :: updWhere sid f l := by
        unfold updWhere
        rw [List.map_cons, if_pos h]
      rw [h1]
      simp only [List.find?_cons, hf a, h, Option.map_some']
    | false =>
      have h1 : updWhere sid f (a :: l) = a :: updWhere sid f l := by
        unfold updWhere
        rw [List.map_cons, if_neg (by simp [h])]
      rw [h1]
      simp only [List.find?_cons, h]
      exact ih

/-- Two updWhere passes keyed by the same unique id compose, provided the
    inner rewrite preserves the key. -/
theorem updWhere_updWhere (l : List Subscription) (sid : String) (f g : Subscription → Subscription)
    (hg : ∀ x, (g x).shopifySubscriptionId = x.shopifySubscriptionId) :
    updWhere sid f (updWhere sid g l) = updWhere sid (fun x => f (g x)) l := by
  simp only [updWhere, List.map_map]
  have hcomp : ((fun sub => if (sub.shopifySubscriptionId == sid) = true then f sub else sub) ∘
        (fun sub => if (sub.shopifySubscriptionId == sid) = true then g sub else sub))
      = fun sub => if (sub.shopifySubscriptionId == sid) = true then f (g sub) else sub := by
    funext x
    cases h : x.shopifySubscriptionId == sid with
    | true => simp [Function.comp, h, hg x]
    | false => simp [Function.comp, h]
  rw [hcomp]

/-- reconcilerApply changes the subscriptions table exactly by rewriting the
    matched row. -/
theorem reconcilerApply_subscriptions (s : DbState) (w : SubscriptionWebhook) (sub : Subscription) :
    (reconcilerApply s w sub).subscriptions
      = updWhere (gidOf w) (reconcilerRowUpd w) s.subscriptions := by
  unfold reconcilerApply reconcilerRowUpd
  cases hb : truthyStr w.billingOn with
  | none =>
    cases h1 : mapProviderStatus w.status == SubStatus.ACTIVE && sub.status == SubStatus.PENDING <;>
      cases h2 : mapProviderStatus w.status == SubStatus.CANCELLED <;>
        simp [h1, h2, updateSubscriptionStatus, setCurrentPeriodEnd, createAuditLog, hb]
  | some d =>
    cases h1 : mapProviderStatus w.status == SubStatus.ACTIVE && sub.status == SubStatus.PENDING <;>
      cases h2 : mapProviderStatus w.status == SubStatus.CANCELLED <;>
        (simp [h1, h2, updateSubscriptionStatus, setCurrentPeriodEnd, createAuditLog, hb]
         rw [updWhere_updWhere] <;> first | rfl | exact fun x => rfl)

/-- reconcilerApply leaves every other table unchanged and appends the
    generic updated entry followed by the specialized entry, if any. -/
theorem reconcilerApply_auditLogs (s : DbState) (w : SubscriptionWebhook) (sub : Subscription) :
    (reconcilerApply s w sub).auditLogs
      = s.auditLogs
        ++ [⟨sub.shopId, "subscription_updated", some "subscription", some sub.id,
              AuditDetails.subscriptionUpdated (gidOf w) sub.status (mapProviderStatus w.status)
                w.billingOn w.id w.name w.status⟩]
        ++ (if mapProviderStatus w.status == SubStatus.ACTIVE && sub.status == SubStatus.PENDING then
              [⟨sub.shopId, "subscription_activated", some "subscription", some sub.id,
                 AuditDetails.subscriptionActivated (gidOf w) sub.name sub.price⟩]
            else if mapProviderStatus w.status == SubStatus.CANCELLED then
              [⟨sub.shopId, "subscription_cancelled_by_shopify", some "subscription", some sub.id,
                 AuditDetails.subscriptionCancelledByShopify (gidOf w)⟩]
            else []) := by
  unfold reconcilerApply
  cases hb : truthyStr w.billingOn <;>
    cases h1 : mapProviderStatus w.status == SubStatus.ACTIVE && sub.status == SubStatus.PENDING <;>
      cases h2 : mapProviderStatus w.status == SubStatus.CANCELLED <;>
        simp [h1, h2, updateSubscriptionStatus, setCurrentPeriodEnd, createAuditLog, hb]

/-- The reconciler row rewrite preserves the unique key. -/
theorem reconcilerRowUpd_id (w : SubscriptionWebhook) (x : Subscription) :
    (reconcilerRowUpd w x).shopifySubscriptionId = x.shopifySubscriptionId := by
  unfold reconcilerRowUpd
  cases truthyStr w.billingOn <;> rfl

/-- The reconciler row rewrite is idempotent: it overwrites the same fields
    with the same values. -/
theorem reconcilerRowUpd_idem (w : SubscriptionWebhook) (x : Subscription) :
    reconcilerRowUpd w (reconcilerRowUpd w x) = reconcilerRowUpd w x := by
  unfold reconcilerRowUpd
  cases truthyStr w.billingOn <;> rfl

/-- A row found by getActiveSubscription has status ACTIVE. -/
theorem getActiveSubscription_status (s : DbState) (shopId : String) (sub : Subscription)
    (h : getActiveSubscription s shopId = some sub) : sub.status = SubStatus.ACTIVE := by
  have hp := List.find?_some h
  simp only [Bool.and_eq_true, beq_iff_eq] at hp
  exact hp.2

/-- Filtering with a predicate immediately after filtering with its negation
    yields the empty list. -/
theorem filter_not_filter_eq_nil {α : Type} (p : α → Bool) (l : List α) :
    (l.filter (fun x => !(p x))).filter p = [] := by
  rw [List.filter_eq_nil_iff]
  intro a ha
  have := List.of_mem_filter ha
  simp only [Bool.not_eq_true'] at this
  simp [this]

/-- Looking up an upserted key finds the new value: existing-row case. -/
theorem upsert_find_existing (l : List Setting) (shopId key : String) (v : SettingValue)
    (hex : l.any (fun st => st.shopId == shopId && st.key == key) = true) :
    ((l.map (fun st => if st.shopId == shopId && st.key == key
        then { st with value := v } else st)).find?
      (fun st => st.shopId == shopId && st.key == key)).map Setting.value = some v := by
  induction l with
  | nil => simp at hex
  | cons a l ih =>
    rw [List.map_cons]
    cases hp : (a.shopId == shopId && a.key == key) with
    | true =>
      rw [if_pos rfl]
      simp only [List.find?_cons]
      have hp2 : (({ a with value := v } : Setting).shopId == shopId
          && ({ a with value := v } : Setting).key == key) = true := hp
      rw [hp2]
      rfl
    | false =>
      rw [if_neg (by simp)]
      simp only [List.find?_cons, hp]
      apply ih
      simp only [List.any_cons, hp, Bool.false_or] at hex
      exact hex

/-- Looking up an upserted key finds the new value: appended-row case. -/
theorem upsert_find_appended (l : List Setting) (shopId key : String) (v : SettingValue)
    (hex : l.any (fun st => st.shopId == shopId && st.key == key) = false) :
    ((l ++ [Setting.mk shopId key v]).find?
      (fun st => st.shopId == shopId && st.key == key)).map Setting.value = some v := by
  induction l with
  | nil =>
    rw [List.nil_append]
    simp only [List.find?_cons]
    have hp : ((Setting.mk shopId key v).shopId == shopId
        && (Setting.mk shopId key v).key == key) = true := by simp
    rw [hp]
    rfl
  | cons a l ih =>
    simp only [List.any_cons, Bool.or_eq_false_iff] at hex
    rw [List.cons_append]
    simp only [List.find?_cons, hex.1]
    exact ih hex.2

/-- The persisted value after db.updateShopSettings is the upserted one. -/
theorem getShopSetting_updateShopSettings (s : DbState) (shopId key : String) (v : SettingValue) :
    getShopSetting (updateShopSettings s shopId key v) shopId key = some v := by
  unfold getShopSetting updateShopSettings
  cases hex : s.settings.any (fun st => st.shopId == shopId && st.key == key) with
  | true =>
    rw [if_pos rfl]
    exact upsert_find_existing _ _ _ _ hex
  | false =>
    rw [if_neg (by simp)]
    exact upsert_find_appended _ _ _ _ hex

/-- createAuditLog does not touch the settings table. -/
theorem getShopSetting_createAuditLog (s : DbState) (e : AuditEntry) (shopId key : String) :
    getShopSetting (createAuditLog s e) shopId key = getShopSetting s shopId key := rfl

/-- The settings gate on a shop with no ACTIVE subscription: persist the
    payload with the three colors overwritten, audit with custom_colors
    restricted, and still succeed. -/
theorem settingsPOST_restricted (sp : String) (s : DbState) (shopRecord : Shop)
    (body : PopupSettings)
    (hsp : sp ≠ "")
    (hshop : findShopByDomain s sp = some shopRecord)
    (hvalid : isValidSettings body = true)
    (hnone : getActiveSubscription s shopRecord.id = none) :
    settingsPOST (some sp) true body s
      = (createAuditLog
          (updateShopSettings s shopRecord.id "popup_settings"
            (SettingValue.popup (restrictColors body)))
          ⟨shopRecord.id, "settings_updated", some "popup_settings", none,
            AuditDetails.settingsUpdated (restrictColors body) ["custom_colors"]⟩,
         ApiResponse.successSettings (restrictColors body) ["custom_colors"]) := by
  simp [settingsPOST, truthyStr, hsp, hshop, hvalid, hnone]

/-- The settings gate on a shop with an ACTIVE subscription: persist the
    payload unmodified. -/
theorem settingsPOST_entitled (sp : String) (s : DbState) (shopRecord : Shop)
    (sub : Subscription) (body : PopupSettings)
    (hsp : sp ≠ "")
    (hshop : findShopByDomain s sp = some shopRecord)
    (hvalid : isValidSettings body = true)
    (hactive : getActiveSubscription s shopRecord.id = some sub) :
    settingsPOST (some sp) true body s
      = (createAuditLog
          (updateShopSettings s shopRecord.id "popup_settings" (SettingValue.popup body))
          ⟨shopRecord.id, "settings_updated", some "popup_settings", none,
            AuditDetails.settingsUpdated body []⟩,
         ApiResponse.successSettings body []) := by
  have hst : sub.status = SubStatus.ACTIVE := getActiveSubscription_status s shopRecord.id sub hactive
  simp [settingsPOST, truthyStr, hsp, hshop, hvalid, hactive, hst]

/-! ## Claim C1 -/

/-- Claim C1: for every raw payload P, passing the base64 HMAC of P computed
    under the configured secret K to verifyWebhookSignature returns true, and
    passing the base64 HMAC of P computed under a different secret Kp returns
    false.  The two digest facts the claim rests on are hypotheses: the two
    keyed digests of P differ, and they have the same byte length (real
    HMAC-SHA256/base64 digests are always 44 bytes). -/
theorem C1_verify_roundtrip (hmacBase64 : String → String → String) (K Kp P : String)
    (hdiff : hmacBase64 Kp P ≠ hmacBase64 K P)
    (hlen : utf8Len (hmacBase64 Kp P) = utf8Len (hmacBase64 K P)) :
    verifyWebhookSignature hmacBase64 K P (hmacBase64 K P) = Except.ok true ∧
    verifyWebhookSignature hmacBase64 K P (hmacBase64 Kp P) = Except.ok false := by
  constructor
  · simp [verifyWebhookSignature, timingSafeEqualStr]
  · simp [verifyWebhookSignature, timingSafeEqualStr, hlen]
    exact fun h => hdiff h.symm

/-- Witness for C1 at concrete secrets and payload, with the stand-in digest. -/
theorem C1_verify_roundtrip_witness :
    hmacSha256Base64Model "other-secret" "raw-body" ≠ hmacSha256Base64Model "demo-secret" "raw-body" ∧
    utf8Len (hmacSha256Base64Model "other-secret" "raw-body")
      = utf8Len (hmacSha256Base64Model "demo-secret" "raw-body") ∧
    verifyWebhookSignature hmacSha256Base64Model "demo-secret" "raw-body"
      (hmacSha256Base64Model "demo-secret" "raw-body") = Except.ok true ∧
    verifyWebhookSignature hmacSha256Base64Model "demo-secret" "raw-body"
      (hmacSha256Base64Model "other-secret" "raw-body") = Except.ok false :=
  ⟨by decide, by decide,
    (C1_verify_roundtrip hmacSha256Base64Model "demo-secret" "other-secret" "raw-body"
      (by decide) (by decide)).1,
    (C1_verify_roundtrip hmacSha256Base64Model "demo-secret" "other-secret" "raw-body"
      (by decide) (by decide)).2⟩

/-! ## Claim C2 -/

/-- Claim C2 (counterexample): verifyWebhookSignature does not return a
    boolean for every supplied signature: for a signature string whose byte
    length differs from the digest's 44 bytes, crypto.timingSafeEqual throws
    instead of returning false. -/
theorem C2_throws_on_short_signature :
    verifyWebhookSignature hmacSha256Base64Model "demo-secret" "raw-body" "short"
      = Except.error "Input buffers must have the same byte length" := by decide

/-- Claim C2 (amended): for every payload and every supplied signature whose
    UTF-8 byte length equals the digest's, verifyWebhookSignature returns a
    boolean: true exactly when the signature matches the keyed digest of the
    payload, false otherwise; signatures of any other byte length make the
    comparison throw instead of returning false. -/
theorem C2_verify_boolean_on_equal_length (hmacBase64 : String → String → String)
    (K data signature : String)
    (hlen : utf8Len signature = utf8Len (hmacBase64 K data)) :
    verifyWebhookSignature hmacBase64 K data signature
      = Except.ok (hmacBase64 K data == signature) := by
  simp [verifyWebhookSignature, timingSafeEqualStr, hlen]

/-- Witness for the amended C2 at a concrete non-matching 44-byte signature. -/
theorem C2_verify_boolean_on_equal_length_witness :
    utf8Len (hmacSha256Base64Model "attacker-secret" "raw-body")
      = utf8Len (hmacSha256Base64Model "demo-secret" "raw-body") ∧
    verifyWebhookSignature hmacSha256Base64Model "demo-secret" "raw-body"
      (hmacSha256Base64Model "attacker-secret" "raw-body")
      = Except.ok (hmacSha256Base64Model "demo-secret" "raw-body"
          == hmacSha256Base64Model "attacker-secret" "raw-body") :=
  ⟨by decide,
    C2_verify_boolean_on_equal_length hmacSha256Base64Model "demo-secret" "raw-body"
      (hmacSha256Base64Model "attacker-secret" "raw-body") (by decide)⟩

/-! ## Claim C3 -/

/-- Claim C3 (counterexample): the failure half of the claim says that when
    the purge step fails, earlier rows persist.  The purge is five awaited
    non-transactional statements; when the throw comes after the first two
    (sessions and audit rows already deleted), the audit log after the
    webhook holds only the cleanup_failed entry: the pre-existing audit row
    and the just-written app_uninstalled entry did not persist, even though
    the run is a failure run that still responds success. -/
theorem C3_partial_purge_counterexample :
    (uninstalledPOST hmacSha256Base64Model demoSecret (some ((2 : Fin 5), "db down"))
        c3State c3Webhook).1.auditLogs
      = [⟨"shop-3", "cleanup_failed", some "app", none,
           AuditDetails.cleanupFailed "c3.myshopify.com" "db down"⟩] ∧
    (uninstalledPOST hmacSha256Base64Model demoSecret (some ((2 : Fin 5), "db down"))
        c3State c3Webhook).2
      = ApiResponse.success (some "App uninstalled and data cleaned up") := by decide

/-- Claim C3 (amended): on a successfully processed uninstall webhook (valid
    signature, shop found, cleanup succeeds) no Subscription, Setting or
    AuditLog row of the shop remains; structurally, the final state is the
    purge applied after the app_uninstalled audit write (so the entry is
    written before the purge, and is itself purged).  When the cleanup
    throws at its (k+1)-th awaited statement, the k statements already
    awaited keep their effect (so rows they deleted do not persist), a
    cleanup_failed entry is appended, and the webhook still responds
    success; in particular, when the throw comes before any delete (k = 0),
    every earlier row, the app_uninstalled entry included, persists. -/
theorem C3_uninstall_purge_ordered (hmacBase64 : String → String → String) (secret : String)
    (s : DbState) (w : UninstallWebhook) (sig D : String) (shop : Shop) (msg : String) (k : Fin 5)
    (hsig : w.signature = some sig)
    (hver : verifyWebhookSignature hmacBase64 secret w.rawBody sig = Except.ok true)
    (hdom : jsOrStr w.myshopifyDomain w.domain = some D)
    (hshop : findShopByDomain s D = some shop) :
    uninstalledPOST hmacBase64 secret none s w
      = (cleanupShopData (deleteSessionsByShop (createAuditLog s
          ⟨shop.id, "app_uninstalled", some "app", none, AuditDetails.appUninstalled D⟩) D) shop.id,
         ApiResponse.success (some "App uninstalled and data cleaned up")) ∧
    (uninstalledPOST hmacBase64 secret none s w).1.subscriptions.filter
        (fun x => x.shopId == shop.id) = [] ∧
    (uninstalledPOST hmacBase64 secret none s w).1.settings.filter
        (fun x => x.shopId == shop.id) = [] ∧
    (uninstalledPOST hmacBase64 secret none s w).1.auditLogs.filter
        (fun x => x.shopId == shop.id) = [] ∧
    uninstalledPOST hmacBase64 secret (some (k, msg)) s w
      = (createAuditLog (runStmts ((uninstallCleanupStmts D shop.id).take k.val)
            (createAuditLog s
              ⟨shop.id, "app_uninstalled", some "app", none, AuditDetails.appUninstalled D⟩))
          ⟨shop.id, "cleanup_failed", some "app", none, AuditDetails.cleanupFailed D msg⟩,
         ApiResponse.success (some "App uninstalled and data cleaned up")) ∧
    uninstalledPOST hmacBase64 secret (some ((0 : Fin 5), msg)) s w
      = (createAuditLog (createAuditLog s
            ⟨shop.id, "app_uninstalled", some "app", none, AuditDetails.appUninstalled D⟩)
          ⟨shop.id, "cleanup_failed", some "app", none, AuditDetails.cleanupFailed D msg⟩,
         ApiResponse.success (some "App uninstalled and data cleaned up")) := by
  have h1 : uninstalledPOST hmacBase64 secret none s w
      = (cleanupShopData (deleteSessionsByShop (createAuditLog s
          ⟨shop.id, "app_uninstalled", some "app", none, AuditDetails.appUninstalled D⟩) D) shop.id,
         ApiResponse.success (some "App uninstalled and data cleaned up")) := by
    simp [uninstalledPOST, hsig, hver, hdom, hshop]
  refine ⟨h1, ?_, ?_, ?_, ?_, ?_⟩
  · rw [h1]
    exact filter_not_filter_eq_nil _ _
  · rw [h1]
    exact filter_not_filter_eq_nil _ _
  · rw [h1]
    exact filter_not_filter_eq_nil _ _
  · simp [uninstalledPOST, hsig, hver, hdom, hshop]
  · simp [uninstalledPOST, hsig, hver, hdom, hshop, runStmts]

/-- Witness for the amended C3 on the concrete uninstall scenario, with the
    failure point after the second awaited statement. -/
theorem C3_uninstall_purge_ordered_witness :
    ((uninstalledPOST hmacSha256Base64Model demoSecret none c3State c3Webhook).1.subscriptions.filter
        (fun x => x.shopId == c3Shop.id) = [] ∧
      (uninstalledPOST hmacSha256Base64Model demoSecret none c3State c3Webhook).1.auditLogs.filter
        (fun x => x.shopId == c3Shop.id) = []) ∧
    uninstalledPOST hmacSha256Base64Model demoSecret (some ((2 : Fin 5), "db down")) c3State c3Webhook
      = (createAuditLog (runStmts ((uninstallCleanupStmts "c3.myshopify.com" "shop-3").take 2)
            (createAuditLog c3State
              ⟨"shop-3", "app_uninstalled", some "app", none,
                AuditDetails.appUninstalled "c3.myshopify.com"⟩))
          ⟨"shop-3", "cleanup_failed", some "app", none,
            AuditDetails.cleanupFailed "c3.myshopify.com" "db down"⟩,
         ApiResponse.success (some "App uninstalled and data cleaned up")) ∧
    uninstalledPOST hmacSha256Base64Model demoSecret (some ((0 : Fin 5), "db down")) c3State c3Webhook
      = (createAuditLog (createAuditLog c3State
            ⟨"shop-3", "app_uninstalled", some "app", none,
              AuditDetails.appUninstalled "c3.myshopify.com"⟩)
          ⟨"shop-3", "cleanup_failed", some "app", none,
            AuditDetails.cleanupFailed "c3.myshopify.com" "db down"⟩,
         ApiResponse.success (some "App uninstalled and data cleaned up")) :=
  ⟨⟨(C3_uninstall_purge_ordered hmacSha256Base64Model demoSecret c3State c3Webhook
        (hmacSha256Base64Model demoSecret "uninstall-raw-body") "c3.myshopify.com" c3Shop "db down"
        (2 : Fin 5) (by decide) (by decide) (by decide) (by decide)).2.1,
      (C3_uninstall_purge_ordered hmacSha256Base64Model demoSecret c3State c3Webhook
        (hmacSha256Base64Model demoSecret "uninstall-raw-body") "c3.myshopify.com" c3Shop "db down"
        (2 : Fin 5) (by decide) (by decide) (by decide) (by decide)).2.2.2.1⟩,
    (C3_uninstall_purge_ordered hmacSha256Base64Model demoSecret c3State c3Webhook
        (hmacSha256Base64Model demoSecret "uninstall-raw-body") "c3.myshopify.com" c3Shop "db down"
        (2 : Fin 5) (by decide) (by decide) (by decide) (by decide)).2.2.2.2.1,
    (C3_uninstall_purge_ordered hmacSha256Base64Model demoSecret c3State c3Webhook
        (hmacSha256Base64Model demoSecret "uninstall-raw-body") "c3.myshopify.com" c3Shop "db down"
        (2 : Fin 5) (by decide) (by decide) (by decide) (by decide)).2.2.2.2.2⟩

/-! ## Claim C4 -/

/-- Claim C4: the reconciler's provider-status mapping sends "declined" to
    CANCELLED (and a verified "declined" event for a known subscription
    therefore also appends the provider-driven cancellation audit entry after
    the generic updated entry), and sends every string outside the mapping
    table, for example "unforeseen_status", to PENDING. -/
theorem C4_status_mapping_declined_and_fallback (hmacBase64 : String → String → String)
    (secret : String) (s : DbState) (w : SubscriptionWebhook) (sig : String) (sub : Subscription)
    (hsig : w.signature = some sig)
    (hver : verifyWebhookSignature hmacBase64 secret w.rawBody sig = Except.ok true)
    (hfound : findSubscriptionByShopifyId s (gidOf w) = some sub)
    (hst : w.status = "declined") :
    mapProviderStatus "declined" = SubStatus.CANCELLED ∧
    mapProviderStatus "unforeseen_status" = SubStatus.PENDING ∧
    (∀ str, statusMapping str = none → mapProviderStatus str = SubStatus.PENDING) ∧
    (reconcilerPOST hmacBase64 secret s w).1.auditLogs
      = s.auditLogs
        ++ [⟨sub.shopId, "subscription_updated", some "subscription", some sub.id,
              AuditDetails.subscriptionUpdated (gidOf w) sub.status SubStatus.CANCELLED
                w.billingOn w.id w.name w.status⟩,
            ⟨sub.shopId, "subscription_cancelled_by_shopify", some "subscription", some sub.id,
              AuditDetails.subscriptionCancelledByShopify (gidOf w)⟩] := by
  refine ⟨rfl, rfl, ?_, ?_⟩
  · intro str hnone
    simp [mapProviderStatus, hnone]
  · have hrun : (reconcilerPOST hmacBase64 secret s w).1 = reconcilerApply s w sub := by
      simp [reconcilerPOST, hsig, hver, hfound]
    rw [hrun, reconcilerApply_auditLogs]
    rw [hst]
    have hd : mapProviderStatus "declined" = SubStatus.CANCELLED := by decide
    simp [hd]

/-- Witness for C4 on the concrete "declined" scenario (PENDING row). -/
theorem C4_status_mapping_witness :
    mapProviderStatus "declined" = SubStatus.CANCELLED ∧
    mapProviderStatus "unforeseen_status" = SubStatus.PENDING ∧
    (reconcilerPOST hmacSha256Base64Model demoSecret c4StatePending c4WebhookDeclined).1.auditLogs
      = [⟨"shop-4", "subscription_updated", some "subscription", some "sub-4",
            AuditDetails.subscriptionUpdated "gid://shopify/AppSubscription/400" SubStatus.PENDING
              SubStatus.CANCELLED none "400" "Privacy Popup Basic" "declined"⟩,
          ⟨"shop-4", "subscription_cancelled_by_shopify", some "subscription", some "sub-4",
            AuditDetails.subscriptionCancelledByShopify "gid://shopify/AppSubscription/400"⟩] :=
  ⟨(C4_status_mapping_declined_and_fallback hmacSha256Base64Model demoSecret c4StatePending
      c4WebhookDeclined (hmacSha256Base64Model demoSecret "sub-raw-declined") c4SubPending
      (by decide) (by decide) (by decide) (by decide)).1,
    (C4_status_mapping_declined_and_fallback hmacSha256Base64Model demoSecret c4StatePending
      c4WebhookDeclined (hmacSha256Base64Model demoSecret "sub-raw-declined") c4SubPending
      (by decide) (by decide) (by decide) (by decide)).2.1,
    (C4_status_mapping_declined_and_fallback hmacSha256Base64Model demoSecret c4StatePending
      c4WebhookDeclined (hmacSha256Base64Model demoSecret "sub-raw-declined") c4SubPending
      (by decide) (by decide) (by decide) (by decide)).2.2.2⟩

/-! ## Claim C5 -/

/-- Claim C5: processing the same status-update event twice through the
    reconciler leaves the subscription table (in particular every
    subscription's status) identical to processing it once, for every
    starting store and every event; audit entries may duplicate. -/
theorem C5_reconciler_idempotent_on_status (hmacBase64 : String → String → String)
    (secret : String) (s : DbState) (w : SubscriptionWebhook) :
    (reconcilerPOST hmacBase64 secret (reconcilerPOST hmacBase64 secret s w).1 w).1.subscriptions
      = (reconcilerPOST hmacBase64 secret s w).1.subscriptions := by
  cases hsig : w.signature with
  | none => simp [reconcilerPOST, hsig]
  | some sig =>
    cases hver : verifyWebhookSignature hmacBase64 secret w.rawBody sig with
    | error e => simp [reconcilerPOST, hsig, hver]
    | ok b =>
      cases b with
      | false => simp [reconcilerPOST, hsig, hver]
      | true =>
        cases hfind : findSubscriptionByShopifyId s (gidOf w) with
        | none => simp [reconcilerPOST, hsig, hver, hfind]
        | some sub =>
          have hfind2 : findSubscriptionByShopifyId (reconcilerApply s w sub) (gidOf w)
              = some (reconcilerRowUpd w sub) := by
            unfold findSubscriptionByShopifyId
            rw [reconcilerApply_subscriptions]
            rw [show updWhere (gidOf w) (reconcilerRowUpd w) s.subscriptions
                  = updWhere (gidOf w) (reconcilerRowUpd w) s.subscriptions from rfl]
            rw [find?_updWhere _ _ _ (reconcilerRowUpd_id w)]
            unfold findSubscriptionByShopifyId at hfind
            rw [hfind, Option.map_some']
          simp only [reconcilerPOST, hsig, hver, hfind, hfind2]
          rw [reconcilerApply_subscriptions, reconcilerApply_subscriptions,
            updWhere_updWhere _ _ _ _ (reconcilerRowUpd_id w)]
          unfold updWhere
          have hfun : (fun x => if (x.shopifySubscriptionId == gidOf w) = true
                then reconcilerRowUpd w (reconcilerRowUpd w x) else x)
              = (fun x => if (x.shopifySubscriptionId == gidOf w) = true
                then reconcilerRowUpd w x else x) := by
            funext x
            rw [reconcilerRowUpd_idem]
          rw [hfun]

/-! ## Claim C6 -/

/-- Claim C6: a verified event that moves a subscription stored as PENDING to
    mapped status ACTIVE appends exactly two audit entries: the generic
    subscription_updated entry carrying old status, new status and the
    billing-period payload field, followed by the distinct
    subscription_activated entry. -/
theorem C6_pending_to_active_two_audits (hmacBase64 : String → String → String)
    (secret : String) (s : DbState) (w : SubscriptionWebhook) (sig : String) (sub : Subscription)
    (hsig : w.signature = some sig)
    (hver : verifyWebhookSignature hmacBase64 secret w.rawBody sig = Except.ok true)
    (hfound : findSubscriptionByShopifyId s (gidOf w) = some sub)
    (hold : sub.status = SubStatus.PENDING)
    (hnew : mapProviderStatus w.status = SubStatus.ACTIVE) :
    (reconcilerPOST hmacBase64 secret s w).1.auditLogs
      = s.auditLogs
        ++ [⟨sub.shopId, "subscription_updated", some "subscription", some sub.id,
              AuditDetails.subscriptionUpdated (gidOf w) SubStatus.PENDING SubStatus.ACTIVE
                w.billingOn w.id w.name w.status⟩,
            ⟨sub.shopId, "subscription_activated", some "subscription", some sub.id,
              AuditDetails.subscriptionActivated (gidOf w) sub.name sub.price⟩] := by
  have hrun : (reconcilerPOST hmacBase64 secret s w).1 = reconcilerApply s w sub := by
    simp [reconcilerPOST, hsig, hver, hfound]
  rw [hrun, reconcilerApply_auditLogs, hold, hnew]
  simp

/-- Witness for C6 on the concrete PENDING-to-ACTIVE scenario (with a
    billing_on date in the payload). -/
theorem C6_pending_to_active_witness :
    (reconcilerPOST hmacSha256Base64Model demoSecret c4StatePending c6WebhookActive).1.auditLogs
      = [⟨"shop-4", "subscription_updated", some "subscription", some "sub-4",
            AuditDetails.subscriptionUpdated "gid://shopify/AppSubscription/400" SubStatus.PENDING
              SubStatus.ACTIVE (some "2026-11-01") "400" "Privacy Popup Basic" "active"⟩,
          ⟨"shop-4", "subscription_activated", some "subscription", some "sub-4",
            AuditDetails.subscriptionActivated "gid://shopify/AppSubscription/400"
              "Privacy Popup Basic" "4.99"⟩] :=
  C6_pending_to_active_two_audits hmacSha256Base64Model demoSecret c4StatePending c6WebhookActive
    (hmacSha256Base64Model demoSecret "sub-raw-active") c4SubPending
    (by decide) (by decide) (by decide) (by decide) (by decide)

/-! ## Claim C7 -/

/-- Claim C7: in the user-initiated cancellation endpoint, when the provider's
    cancel call returns userErrors the store is left completely unchanged and
    the response is a 400 carrying the provider messages joined into one
    message; when the provider reports no errors the local status is set to
    CANCELLED and a user-initiated subscription_cancelled audit entry is
    written. -/
theorem C7_user_cancel_provider_errors (sp : String) (s : DbState) (shopRecord : Shop)
    (activeSub : Subscription)
    (hsp : sp ≠ "")
    (hshop : findShopByDomain s sp = some shopRecord)
    (hactive : getActiveSubscription s shopRecord.id = some activeSub) :
    (∀ msgs : List String, msgs ≠ [] →
      billingCancelPOST (some sp) true ⟨msgs⟩ s
        = (s, ApiResponse.err 400
            ("Subscription cancellation failed: " ++ String.intercalate ", " msgs))) ∧
    billingCancelPOST (some sp) true ⟨[]⟩ s
      = (createAuditLog
          (updateSubscriptionStatus s activeSub.shopifySubscriptionId SubStatus.CANCELLED)
          ⟨shopRecord.id, "subscription_cancelled", some "subscription", some activeSub.id,
            AuditDetails.subscriptionCancelledUser activeSub.shopifySubscriptionId⟩,
         ApiResponse.successSub SubStatus.CANCELLED) := by
  constructor
  · intro msgs hmsgs
    cases msgs with
    | nil => exact absurd rfl hmsgs
    | cons m ms => simp [billingCancelPOST, truthyStr, hsp, hshop, hactive]
  · simp [billingCancelPOST, truthyStr, hsp, hshop, hactive]

/-- Witness for C7 on the concrete ACTIVE-subscription scenario, with a
    provider validation error and with a provider success. -/
theorem C7_user_cancel_witness :
    billingCancelPOST (some "c4.myshopify.com") true
        ⟨["Subscription is already cancelled"]⟩ c4StateActive
      = (c4StateActive, ApiResponse.err 400
          "Subscription cancellation failed: Subscription is already cancelled") ∧
    billingCancelPOST (some "c4.myshopify.com") true ⟨[]⟩ c4StateActive
      = (createAuditLog
          (updateSubscriptionStatus c4StateActive "gid://shopify/AppSubscription/400"
            SubStatus.CANCELLED)
          ⟨"shop-4", "subscription_cancelled", some "subscription", some "sub-4",
            AuditDetails.subscriptionCancelledUser "gid://shopify/AppSubscription/400"⟩,
         ApiResponse.successSub SubStatus.CANCELLED) :=
  ⟨(C7_user_cancel_provider_errors "c4.myshopify.com" c4StateActive c4Shop c4SubActive
      (by decide) (by decide) (by decide)).1 ["Subscription is already cancelled"] (by decide),
    (C7_user_cancel_provider_errors "c4.myshopify.com" c4StateActive c4Shop c4SubActive
      (by decide) (by decide) (by decide)).2⟩

/-! ## Claim C8 -/

/-- Claim C8: for every schema-valid settings payload, when the shop has a
    subscription with status exactly ACTIVE the POST handler persists the
    payload unmodified; when no ACTIVE subscription exists (no subscription
    at all, or any status other than ACTIVE such as PENDING, in which case
    the ACTIVE-filtered lookup returns none) the handler persists the payload
    with exactly the three color fields overwritten to the fixed defaults,
    leaves every other field unchanged, still succeeds, and reports
    custom_colors among restrictedFeatures. -/
theorem C8_settings_gate (sp : String) (s : DbState) (shopRecord : Shop) (body : PopupSettings)
    (hsp : sp ≠ "")
    (hshop : findShopByDomain s sp = some shopRecord)
    (hvalid : isValidSettings body = true) :
    (∀ sub, getActiveSubscription s shopRecord.id = some sub →
      settingsPOST (some sp) true body s
        = (createAuditLog
            (updateShopSettings s shopRecord.id "popup_settings" (SettingValue.popup body))
            ⟨shopRecord.id, "settings_updated", some "popup_settings", none,
              AuditDetails.settingsUpdated body []⟩,
           ApiResponse.successSettings body []) ∧
      getShopSetting (settingsPOST (some sp) true body s).1 shopRecord.id "popup_settings"
        = some (SettingValue.popup body)) ∧
    (getActiveSubscription s shopRecord.id = none →
      settingsPOST (some sp) true body s
        = (createAuditLog
            (updateShopSettings s shopRecord.id "popup_settings"
              (SettingValue.popup (restrictColors body)))
            ⟨shopRecord.id, "settings_updated", some "popup_settings", none,
              AuditDetails.settingsUpdated (restrictColors body) ["custom_colors"]⟩,
           ApiResponse.successSettings (restrictColors body) ["custom_colors"]) ∧
      getShopSetting (settingsPOST (some sp) true body s).1 shopRecord.id "popup_settings"
        = some (SettingValue.popup (restrictColors body)) ∧
      restrictColors body
        = { body with bgColor := "#ffffff", textColor := "#333333", linkColor := "#007ace" }) := by
  constructor
  · intro sub hactive
    have h1 := settingsPOST_entitled sp s shopRecord sub body hsp hshop hvalid hactive
    refine ⟨h1, ?_⟩
    rw [h1]
    exact getShopSetting_updateShopSettings _ _ _ _
  · intro hnone
    have h1 := settingsPOST_restricted sp s shopRecord body hsp hshop hvalid hnone
    refine ⟨h1, ?_, rfl⟩
    rw [h1]
    exact getShopSetting_updateShopSettings _ _ _ _

/-- Witness for C8 on the concrete shop with bgColor #ff0000: persisted
    unmodified under the ACTIVE subscription, persisted with the fixed
    default colors and the custom_colors restriction under the PENDING one. -/
theorem C8_settings_gate_witness :
    getShopSetting (settingsPOST (some "c4.myshopify.com") true demoSettings c4StateActive).1
        "shop-4" "popup_settings" = some (SettingValue.popup demoSettings) ∧
    settingsPOST (some "c4.myshopify.com") true demoSettings c4StatePending
      = (createAuditLog
          (updateShopSettings c4StatePending "shop-4" "popup_settings"
            (SettingValue.popup (restrictColors demoSettings)))
          ⟨"shop-4", "settings_updated", some "popup_settings", none,
            AuditDetails.settingsUpdated (restrictColors demoSettings) ["custom_colors"]⟩,
         ApiResponse.successSettings (restrictColors demoSettings) ["custom_colors"]) ∧
    getShopSetting (settingsPOST (some "c4.myshopify.com") true demoSettings c4StatePending).1
        "shop-4" "popup_settings" = some (SettingValue.popup (restrictColors demoSettings)) :=
  ⟨((C8_settings_gate "c4.myshopify.com" c4StateActive c4Shop demoSettings
      (by decide) (by decide) (by decide)).1 c4SubActive (by decide)).2,
    ((C8_settings_gate "c4.myshopify.com" c4StatePending c4Shop demoSettings
      (by decide) (by decide) (by decide)).2 (by decide)).1,
    ((C8_settings_gate "c4.myshopify.com" c4StatePending c4Shop demoSettings
      (by decide) (by decide) (by decide)).2 (by decide)).2.1⟩

/-! ## Claim C9 -/

/-- Claim C9 (counterexample): starting from a store with no subscriptions,
    the modelled operation sequence subscribe(A), subscribe(B) (both allowed,
    since the guard only checks for an ACTIVE subscription), then verified
    reconciler events activating A and B, ends with two ACTIVE subscriptions
    for the same shop. -/
theorem C9_two_active_counterexample :
    (c9State4.subscriptions.filter
      (fun x => x.shopId == "shop-9" && x.status == SubStatus.ACTIVE)).length = 2 := by decide

/-- Claim C9 (amended): at most one ACTIVE subscription per shop is not an
    invariant of the billing endpoint plus reconciler: the billing endpoint
    refuses to create a subscription while the shop has an ACTIVE one and
    always creates new subscriptions in status PENDING, but the reconciler
    overwrites statuses unconditionally, so two subscriptions created while
    none was ACTIVE can each later be driven to ACTIVE by provider events. -/
theorem C9_amended_subscribe_guard (sp planId freshId : String) (s : DbState)
    (shopRecord : Shop) (sub : Subscription) (cr : CreateSubResult)
    (hsp : sp ≠ "")
    (hshop : findShopByDomain s sp = some shopRecord)
    (hactive : getActiveSubscription s shopRecord.id = some sub) :
    billingSubscribePOST (some sp) true planId cr freshId s
      = (s, ApiResponse.err 400 "Shop already has an active subscription") ∧
    (∀ (s' : DbState) (appSub : AppSub) (freshId' : String),
      findShopByDomain s' sp = some shopRecord →
      getActiveSubscription s' shopRecord.id = none →
      (billingSubscribePOST (some sp) true planId ⟨[], some appSub⟩ freshId' s').1.subscriptions
        = s'.subscriptions
          ++ [⟨freshId', shopRecord.id, appSub.id, appSub.name, SubStatus.PENDING,
                planPrice planId, none⟩]) := by
  constructor
  · simp [billingSubscribePOST, truthyStr, hsp, hshop, hactive]
  · intro s' appSub freshId' hshop' hnone'
    simp [billingSubscribePOST, truthyStr, hsp, hshop', hnone', createSubscription, createAuditLog]

/-- Witness for the amended C9: the guard fires on the ACTIVE-subscription
    store, and on the PENDING-subscription store the endpoint appends a new
    PENDING row. -/
theorem C9_amended_subscribe_guard_witness :
    billingSubscribePOST (some "c4.myshopify.com") true "basic" c9CreateA "loc-x" c4StateActive
      = (c4StateActive, ApiResponse.err 400 "Shop already has an active subscription") ∧
    (billingSubscribePOST (some "c4.myshopify.com") true "basic"
        ⟨[], some ⟨"gid://shopify/AppSubscription/903", "Privacy Popup Basic"⟩⟩
        "loc-903" c4StatePending).1.subscriptions
      = c4StatePending.subscriptions
        ++ [⟨"loc-903", "shop-4", "gid://shopify/AppSubscription/903", "Privacy Popup Basic",
              SubStatus.PENDING, "4.99", none⟩] :=
  ⟨(C9_amended_subscribe_guard "c4.myshopify.com" "basic" "loc-x" c4StateActive c4Shop
      c4SubActive c9CreateA (by decide) (by decide) (by decide)).1,
    (C9_amended_subscribe_guard "c4.myshopify.com" "basic" "loc-x" c4StateActive c4Shop
      c4SubActive c9CreateA (by decide) (by decide) (by decide)).2 c4StatePending
      ⟨"gid://shopify/AppSubscription/903", "Privacy Popup Basic"⟩ "loc-903"
      (by decide) (by decide)⟩

/-! ## Claim C10 -/

/-- Claim C10: the reconciler applies the mapped status as an unconditional
    overwrite: for a subscription stored as ACTIVE, a verified event carrying
    an unrecognized provider status string rewrites the local status to
    PENDING; when that leaves the shop without an ACTIVE subscription, the
    next settings write is treated as non-entitled and persists the fixed
    default colors instead of the requested ones. -/
theorem C10_unconditional_overwrite_downgrade (hmacBase64 : String → String → String)
    (secret : String) (s : DbState) (w : SubscriptionWebhook) (sig : String) (sub : Subscription)
    (sp : String) (shopRecord : Shop) (body : PopupSettings)
    (hsig : w.signature = some sig)
    (hver : verifyWebhookSignature hmacBase64 secret w.rawBody sig = Except.ok true)
    (hfound : findSubscriptionByShopifyId s (gidOf w) = some sub)
    (hact : sub.status = SubStatus.ACTIVE)
    (hunknown : statusMapping w.status = none)
    (hsp : sp ≠ "")
    (hshop2 : findShopByDomain (reconcilerPOST hmacBase64 secret s w).1 sp = some shopRecord)
    (hnoactive : getActiveSubscription (reconcilerPOST hmacBase64 secret s w).1 shopRecord.id = none)
    (hvalid : isValidSettings body = true) :
    (findSubscriptionByShopifyId (reconcilerPOST hmacBase64 secret s w).1 (gidOf w)).map
        Subscription.status = some SubStatus.PENDING ∧
    getShopSetting (settingsPOST (some sp) true body (reconcilerPOST hmacBase64 secret s w).1).1
        shopRecord.id "popup_settings"
      = some (SettingValue.popup (restrictColors body)) := by
  have hrun : (reconcilerPOST hmacBase64 secret s w).1 = reconcilerApply s w sub := by
    simp [reconcilerPOST, hsig, hver, hfound]
  constructor
  · rw [hrun]
    have hfind2 : findSubscriptionByShopifyId (reconcilerApply s w sub) (gidOf w)
        = some (reconcilerRowUpd w sub) := by
      unfold findSubscriptionByShopifyId
      rw [reconcilerApply_subscriptions, find?_updWhere _ _ _ (reconcilerRowUpd_id w)]
      unfold findSubscriptionByShopifyId at hfound
      rw [hfound, Option.map_some']
    rw [hfind2, Option.map_some']
    have hst : (reconcilerRowUpd w sub).status = SubStatus.PENDING := by
      unfold reconcilerRowUpd
      cases truthyStr w.billingOn <;> simp [mapProviderStatus, hunknown]
    rw [hst]
  · rw [settingsPOST_restricted sp _ shopRecord body hsp hshop2 hvalid hnoactive]
    exact getShopSetting_updateShopSettings _ _ _ _

/-- Witness for C10: the concrete ACTIVE subscription is downgraded to
    PENDING by the "unforeseen_status" event, and the following settings
    write persists the default colors. -/
theorem C10_unconditional_overwrite_witness :
    (findSubscriptionByShopifyId
        (reconcilerPOST hmacSha256Base64Model demoSecret c4StateActive c10WebhookUnknown).1
        "gid://shopify/AppSubscription/400").map Subscription.status = some SubStatus.PENDING ∧
    getShopSetting (settingsPOST (some "c4.myshopify.com") true demoSettings
        (reconcilerPOST hmacSha256Base64Model demoSecret c4StateActive c10WebhookUnknown).1).1
        "shop-4" "popup_settings"
      = some (SettingValue.popup (restrictColors demoSettings)) :=
  ⟨(C10_unconditional_overwrite_downgrade hmacSha256Base64Model demoSecret c4StateActive
      c10WebhookUnknown (hmacSha256Base64Model demoSecret "sub-raw-unknown") c4SubActive
      "c4.myshopify.com" c4Shop demoSettings
      (by decide) (by decide) (by decide) (by decide) (by decide) (by decide)
      (by decide) (by decide) (by decide)).1,
    (C10_unconditional_overwrite_downgrade hmacSha256Base64Model demoSecret c4StateActive
      c10WebhookUnknown (hmacSha256Base64Model demoSecret "sub-raw-unknown") c4SubActive
      "c4.myshopify.com" c4Shop demoSettings
      (by decide) (by decide) (by decide) (by decide) (by decide) (by decide)
      (by decide) (by decide) (by decide)).2⟩

end PrivacyPopup
